import Mathlib

/-!
Shallow embedding of `generate_logs.py` (SOC-Simulation-Splunk).

The Python module is a one-shot batch generator of fake log lines for four
record kinds (Apache access, Apache error, firewall, Windows events).  All
randomness comes from the `random` module; we model the random source as an
infinite tape of rationals in `[0,1)` together with a running position:
`random.random()` consumes one tape cell, `random.randint(a,b)` maps one cell
to `a + ⌊q*(b-a+1)⌋`, and `random.choice(l)` maps one cell to the element at
index `⌊q*|l|⌋`.  As the tape ranges over all valid tapes, these primitives
range over exactly the outcomes the Python calls can produce.

Datetimes are modelled as a day number (an integer: the floor of a rational
"days since epoch" time line, so equal day numbers mean equal calendar
year/month/day) plus hour/minute/second fields.  Fallible Python operations
(dict subscription, 2-tuple unpacking of `str.split`) are modelled with
`Option`.  File output is modelled as a map from file names to contents.
-/

/-- The random source: an infinite tape of draws, each meant to lie in `[0,1)`. -/
def Tape : Type := ℕ → ℚ

/-- All cells of the tape are in `[0,1)` — exactly the range of `random.random()`. -/
def validTape (t : Tape) : Prop := ∀ n, 0 ≤ t n ∧ t n < 1

/-- `random.random()`: consume one draw, return it and the next position. -/
def random_random (t : Tape) (p : ℕ) : ℚ × ℕ := (t p, p + 1)

/-- `random.randint(a, b)`: one draw mapped affinely onto the integers `[a, b]`. -/
def random_randint (a b : ℤ) (t : Tape) (p : ℕ) : ℤ × ℕ :=
  (a + ⌊t p * ((b : ℚ) - (a : ℚ) + 1)⌋, p + 1)

/-- `random.choice(l)`: one draw mapped onto an index of `l`. -/
def random_choice {α : Type} (l : List α) (d : α) (t : Tape) (p : ℕ) : α × ℕ :=
  (l.getD (⌊t p * (l.length : ℚ)⌋).toNat d, p + 1)

/-- Does `sep` occur verbatim at the head of `l`? (used by the split model). -/
def headMatches : List Char → List Char → Bool
  | [], _ => true
  | _ :: _, [] => false
  | a :: as, b :: bs => a = b && headMatches as bs

/-- Fuel-driven worker for `pySplit`; fuel bounds the number of steps. -/
def strSplitAux (sep : List Char) : ℕ → List Char → List Char → List (List Char)
  | _, cur, [] => [cur]
  | 0, cur, l => [cur ++ l]
  | fuel + 1, cur, c :: rest =>
    if headMatches sep (c :: rest) then
      cur :: strSplitAux sep fuel [] (List.drop sep.length (c :: rest))
    else
      strSplitAux sep fuel (cur ++ [c]) rest

/-- Python `s.split(sep)` for a non-empty separator: split on every
left-to-right non-overlapping occurrence of `sep`. -/
def pySplit (s sep : String) : List String :=
  (strSplitAux sep.data s.data.length [] s.data).map (fun l => ⟨l⟩)

/-- Python `a, b = l`: succeeds exactly when the list has two elements
(otherwise `ValueError`, modelled as `none`). -/
def unpack2 (l : List String) : Option (String × String) :=
  match l with
  | [a, b] => some (a, b)
  | _ => none

-- ===========================================================================
-- Configuration constants (verbatim from the script).
-- ===========================================================================

def NUM_ACCESS_LOGS : ℕ := 2000
def NUM_ERROR_LOGS : ℕ := 300
def NUM_FIREWALL_LOGS : ℕ := 300
def NUM_WINDOWS_LOGS : ℕ := 300

def DAYS_BACK : ℕ := 7

def HIGH_FREQ_IPS : List String :=
  ["192.168.1.1", "10.0.0.5", "173.194.222.113", "8.8.8.8"]

def CHANCE_HIGH_FREQ : ℚ := 6/10

def GEOGRAPHIC_LOCATIONS : List String :=
  ["United States, New York",
   "Germany, Berlin",
   "France, Paris",
   "Italy, Rome",
   "Spain, Madrid",
   "Canada, Toronto",
   "Brazil, SÃ£o Paulo",
   "India, Mumbai",
   "Australia, Sydney"]

def HTTP_METHODS : List String := ["GET", "POST", "PUT", "DELETE"]

/-- The insertion-ordered `dict` `{200: 80, 404: 10, 500: 5}`. -/
def HTTP_STATUS_CODES_DISTRIBUTION : List (ℕ × ℕ) := [(200, 80), (404, 10), (500, 5)]

def OTHER_CODES : List ℕ := [302, 401, 403, 501]

def ERROR_SEVERITIES : List String := ["INFO", "WARNING", "ERROR", "CRITICAL"]

def WINDOWS_EVENT_IDS : List ℕ := [4624, 4625, 4634, 4672]

def FAKE_USERNAMES : List String :=
  ["administrator", "jsmith", "ptaylor", "mnguyen", "v.rossi", "d.brown", "a.garcia"]

def INCIDENT_IP : String := "9.9.9.9"

def ACCESS_ENDPOINTS : List String :=
  ["/api/v1/users", "/api/v1/orders", "/home", "/about",
   "/static/css/styles.css", "/static/js/app.js", "/login", "/logout"]

def ERROR_MESSAGES : List String :=
  ["File not found",
   "Permission denied",
   "Database connection failed",
   "Syntax error in configuration file",
   "Timeout while reading data",
   "Invalid request payload"]

def FIREWALL_ACTIONS : List String := ["ALLOW", "DROP", "REJECT", "ALERT"]

/-- The `messages_map` dict of `generate_windows_log`. -/
def messages_map : List (ℕ × String) :=
  [(4624, "An account was successfully logged on"),
   (4625, "An account failed to log on"),
   (4634, "An account was logged off"),
   (4672, "Special privileges assigned to new logon")]

-- ===========================================================================
-- get_random_datetime
-- ===========================================================================

/-- The value a Python `datetime` is replaced by in the model: a day number
(calendar date) plus the clock fields. -/
structure PyDateTime where
  day : ℤ
  hour : ℤ
  minute : ℤ
  second : ℤ

/-- `get_random_datetime`: `now` is the current time as rational days since the
epoch (its floor is today's day number, its fractional part the time of day).
Draw order matches the script: date fraction, day/night coin, (night coin,)
hour, minute, second. -/
def get_random_datetime (now : ℚ) (t : Tape) (p : ℕ) : PyDateTime × ℕ :=
  let start_date := now - (DAYS_BACK : ℚ)
  let r1 := random_random t p
  let random_date := start_date + (now - start_date) * r1.1
  let r2 := random_random t r1.2
  let hr : ℤ × ℕ :=
    if r2.1 < 7/10 then
      random_randint 8 19 t r2.2
    else
      let r3 := random_random t r2.2
      if r3.1 < 1/2 then random_randint 20 23 t r3.2
      else random_randint 0 7 t r3.2
  let mn := random_randint 0 59 t hr.2
  let sc := random_randint 0 59 t mn.2
  (⟨⌊random_date⌋, hr.1, mn.1, sc.1⟩, sc.2)

/-- A `PyDateTime` as a point on the rational time line (days since epoch),
for comparing a generated timestamp with `now`. -/
def pyDateTimeVal (d : PyDateTime) : ℚ :=
  (d.day : ℚ) + ((d.hour : ℚ) * 3600 + (d.minute : ℚ) * 60 + (d.second : ℚ)) / 86400

-- ===========================================================================
-- get_random_ip / get_random_location
-- ===========================================================================

/-- `get_random_ip`: with probability `CHANCE_HIGH_FREQ` a frequent-pool pick,
otherwise four uniform octets in `[1,254]` joined with dots. -/
def get_random_ip (t : Tape) (p : ℕ) : String × ℕ :=
  let r := random_random t p
  if r.1 < CHANCE_HIGH_FREQ then
    random_choice HIGH_FREQ_IPS "" t r.2
  else
    let o1 := random_randint 1 254 t r.2
    let o2 := random_randint 1 254 t o1.2
    let o3 := random_randint 1 254 t o2.2
    let o4 := random_randint 1 254 t o3.2
    (String.intercalate "." [toString o1.1, toString o2.1, toString o3.1, toString o4.1], o4.2)

/-- `get_random_location`: uniform pick from `GEOGRAPHIC_LOCATIONS`. -/
def get_random_location (t : Tape) (p : ℕ) : String × ℕ :=
  random_choice GEOGRAPHIC_LOCATIONS "" t p

-- ===========================================================================
-- Access-log status selection (lines 203-218 of the script)
-- ===========================================================================

/-- The cumulative-weights loop over `HTTP_STATUS_CODES_DISTRIBUTION.items()`:
first code whose cumulative weight reaches the dice wins, else `None`. -/
def pickStatus (dice : ℤ) : List (ℕ × ℕ) → ℤ → Option ℕ
  | [], _ => none
  | cp :: rest, cumulative =>
    let c := cumulative + (cp.2 : ℤ)
    if dice ≤ c then some cp.1 else pickStatus dice rest c

/-- Status selection before the incident override: `dice = randint(1,100)`,
the weighted table, and the `OTHER_CODES` fallback when the table missed. -/
def accessStatusBase (t : Tape) (p : ℕ) : ℕ × ℕ :=
  let dice := random_randint 1 100 t p
  match pickStatus dice.1 HTTP_STATUS_CODES_DISTRIBUTION 0 with
  | some code => (code, dice.2)
  | none => random_choice OTHER_CODES 0 t dice.2

/-- Full status selection: after the base pick, an incident address flips the
status to 404 with probability 1/2. -/
def accessStatus (ip : String) (t : Tape) (p : ℕ) : ℕ × ℕ :=
  let base := accessStatusBase t p
  if ip = INCIDENT_IP then
    let r := random_random t base.2
    if r.1 < 1/2 then (404, r.2) else (base.1, r.2)
  else base

-- ===========================================================================
-- Per-kind record structures
-- ===========================================================================

/-- Fields of one Apache access-log record. -/
structure AccessLog where
  dt : PyDateTime
  ip : String
  method : String
  endpoint : String
  status : ℕ
  size : ℤ
  country : String
  city : String

/-- Fields of one Apache error-log record. -/
structure ErrorLog where
  dt : PyDateTime
  ip : String
  severity : String
  msg : String
  country : String
  city : String

/-- Fields of one firewall-log record. -/
structure FirewallLog where
  dt : PyDateTime
  ip : String
  action : String
  country : String
  city : String

/-- Fields of one Windows event-log record. -/
structure WinLog where
  dt : PyDateTime
  event_id : ℕ
  msg : String
  ip : String
  username : String
  country : String
  city : String

-- ===========================================================================
-- Field generators (draw order is exactly the script's statement order)
-- ===========================================================================

/-- `generate_apache_access_log`, field part: timestamp, incident coin, ip,
method, endpoint, status (with fallback and incident override), size,
location.  `none` models the `ValueError` of a failed 2-way unpack. -/
def generate_apache_access_fields (now : ℚ) (t : Tape) (p : ℕ) : Option AccessLog × ℕ :=
  let dtr := get_random_datetime now t p
  let inc := random_random t dtr.2
  let ipr := if inc.1 < 15/100 then (INCIDENT_IP, inc.2) else get_random_ip t inc.2
  let mth := random_choice HTTP_METHODS "" t ipr.2
  let ep := random_choice ACCESS_ENDPOINTS "" t mth.2
  let st := accessStatus ipr.1 t ep.2
  let sz := random_randint 512 524288 t st.2
  let locr := get_random_location t sz.2
  match unpack2 (pySplit locr.1 ", ") with
  | none => (none, locr.2)
  | some cc => (some ⟨dtr.1, ipr.1, mth.1, ep.1, st.1, sz.1, cc.1, cc.2⟩, locr.2)

/-- `generate_apache_error_log`, field part: timestamp, ip, severity, message,
location. -/
def generate_apache_error_fields (now : ℚ) (t : Tape) (p : ℕ) : Option ErrorLog × ℕ :=
  let dtr := get_random_datetime now t p
  let ipr := get_random_ip t dtr.2
  let sev := random_choice ERROR_SEVERITIES "" t ipr.2
  let msg := random_choice ERROR_MESSAGES "" t sev.2
  let locr := get_random_location t msg.2
  match unpack2 (pySplit locr.1 ", ") with
  | none => (none, locr.2)
  | some cc => (some ⟨dtr.1, ipr.1, sev.1, msg.1, cc.1, cc.2⟩, locr.2)

/-- `generate_firewall_log`, field part: timestamp, ip, action, location. -/
def generate_firewall_fields (now : ℚ) (t : Tape) (p : ℕ) : Option FirewallLog × ℕ :=
  let dtr := get_random_datetime now t p
  let ipr := get_random_ip t dtr.2
  let act := random_choice FIREWALL_ACTIONS "" t ipr.2
  let locr := get_random_location t act.2
  match unpack2 (pySplit locr.1 ", ") with
  | none => (none, locr.2)
  | some cc => (some ⟨dtr.1, ipr.1, act.1, cc.1, cc.2⟩, locr.2)

/-- `generate_windows_log`, field part: timestamp, event id, message lookup
(`KeyError` modelled as `none`), location, incident coin, ip, username. -/
def generate_windows_fields (now : ℚ) (t : Tape) (p : ℕ) : Option WinLog × ℕ :=
  let dtr := get_random_datetime now t p
  let ev := random_choice WINDOWS_EVENT_IDS 0 t dtr.2
  match messages_map.lookup ev.1 with
  | none => (none, ev.2)
  | some msg =>
    let locr := get_random_location t ev.2
    match unpack2 (pySplit locr.1 ", ") with
    | none => (none, locr.2)
    | some cc =>
      let inc := random_random t locr.2
      let ipr := if inc.1 < 15/100 then (INCIDENT_IP, inc.2) else get_random_ip t inc.2
      let user := random_choice FAKE_USERNAMES "" t ipr.2
      (some ⟨dtr.1, ev.1, msg, ipr.1, user.1, cc.1, cc.2⟩, user.2)

-- ===========================================================================
-- strftime rendering
-- ===========================================================================

def MONTH_ABBREV : List String :=
  ["Jan", "Feb", "Mar", "Apr", "May", "Jun", "Jul", "Aug", "Sep", "Oct", "Nov", "Dec"]

def WEEKDAY_ABBREV : List String := ["Sun", "Mon", "Tue", "Wed", "Thu", "Fri", "Sat"]

/-- Two-digit zero padding, as in `%d`, `%m`, `%H`, `%M`, `%S`. -/
def pad2 (n : ℤ) : String := if n < 10 then "0" ++ toString n else toString n

/-- Proleptic-Gregorian (year, month, day-of-month) of a day number counted
from 1970-01-01 (the standard civil-from-days computation). -/
def civilFromDays (z0 : ℤ) : ℤ × ℤ × ℤ :=
  let z := z0 + 719468
  let era := Int.ediv z 146097
  let doe := z - era * 146097
  let yoe := Int.ediv (doe - Int.ediv doe 1460 + Int.ediv doe 36524 - Int.ediv doe 146096) 365
  let y := yoe + era * 400
  let doy := doe - (365 * yoe + Int.ediv yoe 4 - Int.ediv yoe 100)
  let mp := Int.ediv (5 * doy + 2) 153
  let dom := doy - Int.ediv (153 * mp + 2) 5 + 1
  let m := mp + (if mp < 10 then 3 else -9)
  (if m ≤ 2 then y + 1 else y, m, dom)

/-- `%b`. -/
def monthName (m : ℤ) : String := MONTH_ABBREV.getD (m - 1).toNat ""

/-- `%a`; 1970-01-01 (day number 0) was a Thursday. -/
def weekdayName (day : ℤ) : String := WEEKDAY_ABBREV.getD (Int.emod (day + 4) 7).toNat ""

/-- `strftime("%d/%b/%Y:%H:%M:%S +0000")`. -/
def strftime_access (d : PyDateTime) : String :=
  let c := civilFromDays d.day
  pad2 c.2.2 ++ "/" ++ monthName c.2.1 ++ "/" ++ toString c.1 ++ ":" ++
    pad2 d.hour ++ ":" ++ pad2 d.minute ++ ":" ++ pad2 d.second ++ " +0000"

/-- `strftime("%a %b %d %H:%M:%S %Y")`. -/
def strftime_error (d : PyDateTime) : String :=
  let c := civilFromDays d.day
  weekdayName d.day ++ " " ++ monthName c.2.1 ++ " " ++ pad2 c.2.2 ++ " " ++
    pad2 d.hour ++ ":" ++ pad2 d.minute ++ ":" ++ pad2 d.second ++ " " ++ toString c.1

/-- `strftime("%b %d %H:%M:%S")`. -/
def strftime_firewall (d : PyDateTime) : String :=
  let c := civilFromDays d.day
  monthName c.2.1 ++ " " ++ pad2 c.2.2 ++ " " ++
    pad2 d.hour ++ ":" ++ pad2 d.minute ++ ":" ++ pad2 d.second

/-- `strftime("%Y-%m-%d %H:%M:%S")`. -/
def strftime_windows (d : PyDateTime) : String :=
  let c := civilFromDays d.day
  toString c.1 ++ "-" ++ pad2 c.2.1 ++ "-" ++ pad2 c.2.2 ++ " " ++
    pad2 d.hour ++ ":" ++ pad2 d.minute ++ ":" ++ pad2 d.second

-- ===========================================================================
-- Line formatters (the f-strings of the script)
-- ===========================================================================

def render_access (a : AccessLog) : String :=
  a.ip ++ " - - [" ++ strftime_access a.dt ++ "] \"" ++ a.method ++ " " ++ a.endpoint ++
    " HTTP/1.1\" " ++ toString a.status ++ " " ++ toString a.size ++ " " ++
    "geo_country=\"" ++ a.country ++ "\" geo_city=\"" ++ a.city ++ "\""

def render_error (e : ErrorLog) : String :=
  "[" ++ strftime_error e.dt ++ "] [" ++ e.severity ++ "] [client " ++ e.ip ++ "] " ++
    e.msg ++ " " ++
    "geo_country=\"" ++ e.country ++ "\" geo_city=\"" ++ e.city ++ "\""

def render_firewall (f : FirewallLog) : String :=
  strftime_firewall f.dt ++ " " ++ "myfirewall" ++
    " CEF:0|FakeCompany|Firewall|1.0|100|Traffic|INFO| " ++
    "src=" ++ f.ip ++ " act=" ++ f.action ++ " " ++
    "geo_country=\"" ++ f.country ++ "\" geo_city=\"" ++ f.city ++ "\""

def render_windows (w : WinLog) : String :=
  strftime_windows w.dt ++ " " ++ "WINHOST" ++ " Security " ++
    "ID=" ++ toString w.event_id ++ " MSG=\"" ++ w.msg ++ "\" " ++
    "[client " ++ w.ip ++ "] username=\"" ++ w.username ++ "\" " ++
    "geo_country=\"" ++ w.country ++ "\" geo_city=\"" ++ w.city ++ "\""

-- ===========================================================================
-- Line generators (fields + formatting), and the output writer `main`
-- ===========================================================================

def generate_apache_access_log (now : ℚ) (t : Tape) (p : ℕ) : Option String × ℕ :=
  let r := generate_apache_access_fields now t p
  (r.1.map render_access, r.2)

def generate_apache_error_log (now : ℚ) (t : Tape) (p : ℕ) : Option String × ℕ :=
  let r := generate_apache_error_fields now t p
  (r.1.map render_error, r.2)

def generate_firewall_log (now : ℚ) (t : Tape) (p : ℕ) : Option String × ℕ :=
  let r := generate_firewall_fields now t p
  (r.1.map render_firewall, r.2)

def generate_windows_log (now : ℚ) (t : Tape) (p : ℕ) : Option String × ℕ :=
  let r := generate_windows_fields now t p
  (r.1.map render_windows, r.2)

/-- Run a line generator `n` times, threading the shared random source;
a raised exception (`none`) aborts the whole run. -/
def runN (gen : Tape → ℕ → Option String × ℕ) : ℕ → Tape → ℕ → Option (List String) × ℕ
  | 0, _, p => (some [], p)
  | n + 1, t, p =>
    match gen t p with
    | (none, p1) => (none, p1)
    | (some line, p1) =>
      match runN gen n t p1 with
      | (none, p2) => (none, p2)
      | (some lines, p2) => (some (line :: lines), p2)

/-- The file system: a map from file names to contents (`none` = absent). -/
def FS : Type := String → Option String

/-- `open(name, "w")` + write: the new content replaces whatever was there. -/
def writeFile (fs : FS) (name content : String) : FS :=
  fun n => if n = name then some content else fs n

/-- Contents of a destination: every generated line followed by `"\n"`. -/
def renderFile (lines : List String) : String :=
  String.join (lines.map (fun l => l ++ "\n"))

/-- `main()`: generate and write the four kinds in script order, sharing the
random source across kinds.  Counts are the script's configuration constants
(`NUM_ACCESS_LOGS`, ...), kept as parameters of the configuration. -/
def pymain (nAcc nErr nFw nWin : ℕ) (now : ℚ) (t : Tape) (fs : FS) : Option FS × ℕ :=
  match runN (generate_apache_access_log now) nAcc t 0 with
  | (none, p1) => (none, p1)
  | (some lsA, p1) =>
    let fs1 := writeFile fs "apache_access.txt" (renderFile lsA)
    match runN (generate_apache_error_log now) nErr t p1 with
    | (none, p2) => (none, p2)
    | (some lsE, p2) =>
      let fs2 := writeFile fs1 "apache_error.txt" (renderFile lsE)
      match runN (generate_firewall_log now) nFw t p2 with
      | (none, p3) => (none, p3)
      | (some lsF, p3) =>
        let fs3 := writeFile fs2 "firewall_logs.txt" (renderFile lsF)
        match runN (generate_windows_log now) nWin t p3 with
        | (none, p4) => (none, p4)
        | (some lsW, p4) =>
          (some (writeFile fs3 "windows_logs.txt" (renderFile lsW)), p4)

/-- "Four dot-separated integers, each in `[lo, 254]`". -/
def IsIpFrom (lo : ℤ) (s : String) : Prop :=
  ∃ a b c d : ℤ,
    (lo ≤ a ∧ a ≤ 254) ∧ (lo ≤ b ∧ b ≤ 254) ∧ (lo ≤ c ∧ c ≤ 254) ∧ (lo ≤ d ∧ d ≤ 254) ∧
    s = toString a ++ "." ++ toString b ++ "." ++ toString c ++ "." ++ toString d

/-- The spec's claimed address contract: four dot-separated integers in `[1,254]`. -/
def IsValidIp (s : String) : Prop := IsIpFrom 1 s

/-- The all-zero tape: a convenient concrete valid random source. -/
def zeroTape : Tape := fun _ => 0

/-- A tape steering `get_random_ip` to the frequent pool's second entry
`"10.0.0.5"`: first draw 0 (take the pool), second draw 1/4 (index 1 of 4). -/
def ipPoolTape : Tape := fun n => if n = 0 then 0 else 1/4

/-- A tape steering the error/firewall generators to synthesize the incident
address: positions 0-4 drive the timestamp (day branch), position 5 is `6/10`
(skip the frequent pool), positions 6-9 are `8/254` (octet value 9). -/
def incidentTape : Tape := fun n =>
  if n = 5 then 6/10
  else if n = 6 ∨ n = 7 ∨ n = 8 ∨ n = 9 then 8/254
  else 0

-- ===========================================================================
-- Helper lemmas about the random primitives
-- ===========================================================================

theorem zeroTape_valid : validTape zeroTape := by
  intro n
  constructor
  · simp [zeroTape]
  · norm_num [zeroTape]

/-- `randint(a,b)` really lands in `[a,b]` for a valid draw. -/
theorem random_randint_bounds (a b : ℤ) (t : Tape) (p : ℕ) (hv : validTape t) (hab : a ≤ b) :
    a ≤ (random_randint a b t p).1 ∧ (random_randint a b t p).1 ≤ b := by
  obtain ⟨h0, h1⟩ := hv p
  have habq : (a : ℚ) ≤ (b : ℚ) := by exact_mod_cast hab
  have hpos : (0 : ℚ) < (b : ℚ) - (a : ℚ) + 1 := by linarith
  constructor
  · have hnn : 0 ≤ ⌊t p * ((b : ℚ) - (a : ℚ) + 1)⌋ :=
      Int.floor_nonneg.mpr (mul_nonneg h0 (le_of_lt hpos))
    simp only [random_randint]
    omega
  · have hlt : t p * ((b : ℚ) - (a : ℚ) + 1) < (b : ℚ) - (a : ℚ) + 1 := by nlinarith
    have hfl : ⌊t p * ((b : ℚ) - (a : ℚ) + 1)⌋ < b - a + 1 :=
      Int.floor_lt.mpr (by push_cast; linarith)
    simp only [random_randint]
    omega

/-- `choice(l)` really returns a member of `l` for a valid draw. -/
theorem random_choice_mem {α : Type} (l : List α) (d : α) (t : Tape) (p : ℕ)
    (hv : validTape t) (hl : 0 < l.length) :
    (random_choice l d t p).1 ∈ l := by
  obtain ⟨h0, h1⟩ := hv p
  have hlq : (0 : ℚ) < (l.length : ℚ) := by exact_mod_cast hl
  have hidx : (⌊t p * (l.length : ℚ)⌋).toNat < l.length := by
    have hlt : t p * (l.length : ℚ) < (l.length : ℚ) := by nlinarith
    have hfl : ⌊t p * (l.length : ℚ)⌋ < (l.length : ℤ) :=
      Int.floor_lt.mpr (by push_cast; linarith)
    omega
  simp only [random_choice]
  rw [List.getD_eq_getElem l d hidx]
  exact List.getElem_mem hidx

theorem get_random_location_mem (t : Tape) (p : ℕ) (hv : validTape t) :
    (get_random_location t p).1 ∈ GEOGRAPHIC_LOCATIONS := by
  unfold get_random_location
  exact random_choice_mem _ _ _ _ hv (by decide)

-- ===========================================================================
-- Helper lemmas about the fixed vocabularies
-- ===========================================================================

/-- Splitting any location on `", "` gives exactly two parts whose
recombination with `", "` is the original entry. -/
theorem loc_split_pair : ∀ loc ∈ GEOGRAPHIC_LOCATIONS,
    (unpack2 (pySplit loc ", ")).map (fun q => q.1 ++ ", " ++ q.2) = some loc := by
  decide

theorem messages_map_total : ∀ e ∈ WINDOWS_EVENT_IDS, (messages_map.lookup e).isSome := by
  decide

theorem unpack_loc_ne_none (t : Tape) (p : ℕ) (hv : validTape t) :
    unpack2 (pySplit (get_random_location t p).1 ", ") ≠ none := by
  intro h
  have hsp := loc_split_pair _ (get_random_location_mem t p hv)
  rw [h] at hsp
  exact Option.noConfusion hsp

theorem unpack_loc_some_mem (t : Tape) (p : ℕ) (hv : validTape t) (q : String × String)
    (h : unpack2 (pySplit (get_random_location t p).1 ", ") = some q) :
    q.1 ++ ", " ++ q.2 ∈ GEOGRAPHIC_LOCATIONS := by
  have hm := get_random_location_mem t p hv
  have hsp := loc_split_pair _ hm
  rw [h, Option.map_some'] at hsp
  rw [Option.some_inj.mp hsp]
  exact hm

theorem windows_lookup_ne_none (t : Tape) (p : ℕ) (hv : validTape t) :
    messages_map.lookup (random_choice WINDOWS_EVENT_IDS 0 t p).1 ≠ none := by
  have hm := random_choice_mem WINDOWS_EVENT_IDS 0 t p hv (by decide)
  have hs := messages_map_total _ hm
  intro h
  rw [h] at hs
  exact Bool.noConfusion hs

/-- `".".join` of four octet strings, flattened. -/
theorem intercalate_four (a b c d : String) :
    String.intercalate "." [a, b, c, d] = a ++ "." ++ b ++ "." ++ c ++ "." ++ d := by
  simp [String.intercalate, String.intercalate.go]

/-- The cumulative-weight walk over the status table, in closed form. -/
theorem pickStatus_eq (d : ℤ) :
    pickStatus d HTTP_STATUS_CODES_DISTRIBUTION 0 =
      if d ≤ 80 then some 200
      else if d ≤ 90 then some 404
      else if d ≤ 95 then some 500
      else none := by
  simp only [pickStatus, HTTP_STATUS_CODES_DISTRIBUTION]
  norm_num

-- ===========================================================================
-- Existence / shape lemmas for the four field generators
-- ===========================================================================

theorem access_fields_spec (now : ℚ) (t : Tape) (p : ℕ) (hv : validTape t) :
    ∃ a : AccessLog, (generate_apache_access_fields now t p).1 = some a ∧
      a.country ++ ", " ++ a.city ∈ GEOGRAPHIC_LOCATIONS := by
  simp only [generate_apache_access_fields]
  split
  · next heq => exact absurd heq (unpack_loc_ne_none t _ hv)
  · next cc heq => exact ⟨_, rfl, unpack_loc_some_mem t _ hv cc heq⟩

theorem error_fields_spec (now : ℚ) (t : Tape) (p : ℕ) (hv : validTape t) :
    ∃ e : ErrorLog, (generate_apache_error_fields now t p).1 = some e ∧
      e.country ++ ", " ++ e.city ∈ GEOGRAPHIC_LOCATIONS := by
  simp only [generate_apache_error_fields]
  split
  · next heq => exact absurd heq (unpack_loc_ne_none t _ hv)
  · next cc heq => exact ⟨_, rfl, unpack_loc_some_mem t _ hv cc heq⟩

theorem firewall_fields_spec (now : ℚ) (t : Tape) (p : ℕ) (hv : validTape t) :
    ∃ f : FirewallLog, (generate_firewall_fields now t p).1 = some f ∧
      f.country ++ ", " ++ f.city ∈ GEOGRAPHIC_LOCATIONS := by
  simp only [generate_firewall_fields]
  split
  · next heq => exact absurd heq (unpack_loc_ne_none t _ hv)
  · next cc heq => exact ⟨_, rfl, unpack_loc_some_mem t _ hv cc heq⟩

theorem windows_fields_spec (now : ℚ) (t : Tape) (p : ℕ) (hv : validTape t) :
    ∃ w : WinLog, (generate_windows_fields now t p).1 = some w ∧
      w.event_id ∈ WINDOWS_EVENT_IDS ∧
      messages_map.lookup w.event_id = some w.msg ∧
      w.country ++ ", " ++ w.city ∈ GEOGRAPHIC_LOCATIONS := by
  simp only [generate_windows_fields]
  split
  · next heq => exact absurd heq (windows_lookup_ne_none t _ hv)
  · next msg heq =>
    split
    · next heq2 => exact absurd heq2 (unpack_loc_ne_none t _ hv)
    · next cc heq2 =>
      refine ⟨_, rfl, ?_, heq, unpack_loc_some_mem t _ hv cc heq2⟩
      exact random_choice_mem WINDOWS_EVENT_IDS 0 t _ hv (by decide)

theorem access_log_isSome (now : ℚ) (t : Tape) (p : ℕ) (hv : validTape t) :
    ((generate_apache_access_log now t p).1).isSome := by
  obtain ⟨a, ha, -⟩ := access_fields_spec now t p hv
  simp [generate_apache_access_log, ha]

theorem error_log_isSome (now : ℚ) (t : Tape) (p : ℕ) (hv : validTape t) :
    ((generate_apache_error_log now t p).1).isSome := by
  obtain ⟨e, he, -⟩ := error_fields_spec now t p hv
  simp [generate_apache_error_log, he]

theorem firewall_log_isSome (now : ℚ) (t : Tape) (p : ℕ) (hv : validTape t) :
    ((generate_firewall_log now t p).1).isSome := by
  obtain ⟨f, hf, -⟩ := firewall_fields_spec now t p hv
  simp [generate_firewall_log, hf]

theorem windows_log_isSome (now : ℚ) (t : Tape) (p : ℕ) (hv : validTape t) :
    ((generate_windows_log now t p).1).isSome := by
  obtain ⟨w, hw, -⟩ := windows_fields_spec now t p hv
  simp [generate_windows_log, hw]

/-- A total generator run `n` times yields exactly `n` lines. -/
theorem runN_spec (gen : Tape → ℕ → Option String × ℕ) (t : Tape)
    (hgen : ∀ p, ((gen t p).1).isSome) :
    ∀ n p, ∃ ls, (runN gen n t p).1 = some ls ∧ ls.length = n := by
  intro n
  induction n with
  | zero => exact fun p => ⟨[], rfl, rfl⟩
  | succ n ih =>
    intro p
    obtain ⟨line, hline⟩ := Option.isSome_iff_exists.mp (hgen p)
    rcases hgp : gen t p with ⟨o1, p1⟩
    have ho1 : o1 = some line := by rw [hgp] at hline; exact hline
    subst ho1
    obtain ⟨ls, hls, hlen⟩ := ih p1
    rcases hrn : runN gen n t p1 with ⟨o2, p2⟩
    have ho2 : o2 = some ls := by rw [hrn] at hls; exact hls
    subst ho2
    refine ⟨line :: ls, ?_, by simp [hlen]⟩
    simp only [runN, hgp, hrn]

-- ===========================================================================
-- Octet-string facts (for the address-format claim)
-- ===========================================================================

set_option maxRecDepth 4000 in
theorem octet_no_dot : ∀ x ∈ Finset.Icc (1:ℤ) 254, '.' ∉ (toString x).data := by decide

set_option maxRecDepth 4000 in
theorem octet_ne_zero : ∀ x ∈ Finset.Icc (1:ℤ) 254, toString x ≠ "0" := by decide

/-- If a dot-free chunk decomposition matches the characters of `"10.0.0.5"`,
the second chunk is the single character `'0'`. -/
theorem octets_ne_target (A B C D : List Char)
    (hA : '.' ∉ A) (hB : '.' ∉ B)
    (h : A ++ '.' :: (B ++ '.' :: (C ++ '.' :: D)) = ['1', '0', '.', '0', '.', '0', '.', '5']) :
    B = ['0'] := by
  rcases A with _ | ⟨c1, A1⟩
  · rw [List.nil_append] at h
    injection h with hc h
    exact absurd hc (by decide)
  · rw [List.cons_append] at h
    injection h with hc1 h
    rcases A1 with _ | ⟨c2, A2⟩
    · rw [List.nil_append] at h
      injection h with hc h
      exact absurd hc (by decide)
    · rw [List.cons_append] at h
      injection h with hc2 h
      rcases A2 with _ | ⟨c3, A3⟩
      · rw [List.nil_append] at h
        injection h with hc h
        rcases B with _ | ⟨d1, B1⟩
        · rw [List.nil_append] at h
          injection h with hd h
          exact absurd hd (by decide)
        · rw [List.cons_append] at h
          injection h with hd1 h
          rcases B1 with _ | ⟨d2, B2⟩
          · rw [hd1]
          · rw [List.cons_append] at h
            injection h with hd2 h
            subst hd2
            exact absurd (by simp : '.' ∈ d1 :: '.' :: B2) hB
      · rw [List.cons_append] at h
        injection h with hc3 h
        subst hc3
        exact absurd (by simp : '.' ∈ c1 :: c2 :: '.' :: A3) hA

/-- The frequent-pool entry `"10.0.0.5"` is not four dot-separated integers
in `[1,254]`: its middle octets are `0`. -/
theorem not_valid_10005 : ¬ IsValidIp "10.0.0.5" := by
  intro hvp
  unfold IsValidIp IsIpFrom at hvp
  obtain ⟨a, b, c, d, ⟨ha1, ha2⟩, ⟨hb1, hb2⟩, -, -, heq⟩ := hvp
  have hd := congrArg String.data heq
  have hdot : ("." : String).data = ['.'] := rfl
  have hlhs : ("10.0.0.5" : String).data = ['1', '0', '.', '0', '.', '0', '.', '5'] := rfl
  simp only [String.data_append, hdot, hlhs, List.append_assoc, List.singleton_append] at hd
  have hB := octets_ne_target (toString a).data (toString b).data (toString c).data
    (toString d).data (octet_no_dot a (Finset.mem_Icc.mpr ⟨ha1, ha2⟩))
    (octet_no_dot b (Finset.mem_Icc.mpr ⟨hb1, hb2⟩)) hd.symm
  have h0 : ("0" : String).data = ['0'] := rfl
  exact octet_ne_zero b (Finset.mem_Icc.mpr ⟨hb1, hb2⟩) (String.ext (hB.trans h0.symm))

-- ===========================================================================
-- Claim C2 (corrected)
-- ===========================================================================

/-- Claim C2, counterexample: a valid draw sequence (take the frequent pool,
index 1) makes `get_random_ip` return `"10.0.0.5"`, which is not four
dot-separated integers in `[1,254]` — so the claimed contract is false. -/
theorem claim_c2_counterexample :
    validTape ipPoolTape ∧ (get_random_ip ipPoolTape 0).1 = "10.0.0.5" ∧
      ¬ IsValidIp (get_random_ip ipPoolTape 0).1 := by
  have heval : (get_random_ip ipPoolTape 0).1 = "10.0.0.5" := by
    norm_num [get_random_ip, random_random, random_choice, ipPoolTape,
      CHANCE_HIGH_FREQ, HIGH_FREQ_IPS]
  refine ⟨?_, heval, ?_⟩
  · intro n
    unfold ipPoolTape
    split_ifs <;> norm_num
  · rw [heval]
    exact not_valid_10005

/-- Claim C2 (amended): for every valid draw sequence, the general address
draw returns four dot-separated integers each in `[0,254]`; on the
uniform-synthesis branch (first draw not below `CHANCE_HIGH_FREQ`) each
octet is moreover in `[1,254]`. -/
theorem claim_c2_address_format (t : Tape) (p : ℕ) (hv : validTape t) :
    IsIpFrom 0 (get_random_ip t p).1 ∧
    (¬ t p < CHANCE_HIGH_FREQ → IsIpFrom 1 (get_random_ip t p).1) := by
  have hsynth : ¬ t p < CHANCE_HIGH_FREQ → IsIpFrom 1 (get_random_ip t p).1 := by
    intro h
    dsimp only [get_random_ip, random_random]
    rw [if_neg h, intercalate_four]
    exact ⟨_, _, _, _,
      random_randint_bounds 1 254 t _ hv (by norm_num),
      random_randint_bounds 1 254 t _ hv (by norm_num),
      random_randint_bounds 1 254 t _ hv (by norm_num),
      random_randint_bounds 1 254 t _ hv (by norm_num), rfl⟩
  refine ⟨?_, hsynth⟩
  by_cases h : t p < CHANCE_HIGH_FREQ
  · dsimp only [get_random_ip, random_random]
    rw [if_pos h]
    have hm := random_choice_mem HIGH_FREQ_IPS "" t (p + 1) hv (by decide)
    simp only [HIGH_FREQ_IPS, List.mem_cons, List.not_mem_nil, or_false] at hm ⊢
    rcases hm with hm | hm | hm | hm
    · rw [hm]
      exact ⟨192, 168, 1, 1, by norm_num, by norm_num, by norm_num, by norm_num, by decide⟩
    · rw [hm]
      exact ⟨10, 0, 0, 5, by norm_num, by norm_num, by norm_num, by norm_num, by decide⟩
    · rw [hm]
      exact ⟨173, 194, 222, 113, by norm_num, by norm_num, by norm_num, by norm_num, by decide⟩
    · rw [hm]
      exact ⟨8, 8, 8, 8, by norm_num, by norm_num, by norm_num, by norm_num, by decide⟩
  · obtain ⟨a, b, c, d, ha, hb, hc, hd, he⟩ := hsynth h
    exact ⟨a, b, c, d, ⟨by omega, ha.2⟩, ⟨by omega, hb.2⟩, ⟨by omega, hc.2⟩,
      ⟨by omega, hd.2⟩, he⟩

/-- Claim C2, witness: the amended theorem applied at the all-zero tape. -/
theorem claim_c2_address_format_witness :
    validTape zeroTape ∧ IsIpFrom 0 (get_random_ip zeroTape 0).1 :=
  ⟨zeroTape_valid, (claim_c2_address_format zeroTape 0 zeroTape_valid).1⟩

-- ===========================================================================
-- Claim C1
-- ===========================================================================

/-- Claim C1: for every valid draw sequence, the generated timestamp's hour is
in `[0,23]` (the day branch draws in `[8,19]`, the night branch in `[20,23]`
or `[0,7]`), minute and second are in `[0,59]`, and the calendar date (day
number) lies between the date `DAYS_BACK` days before `now` and `now`'s date. -/
theorem claim_c1_timestamp_ranges (now : ℚ) (t : Tape) (p : ℕ) (hv : validTape t) :
    (0 ≤ ((get_random_datetime now t p).1).hour ∧ ((get_random_datetime now t p).1).hour ≤ 23) ∧
    (t (p + 1) < 7/10 →
      8 ≤ ((get_random_datetime now t p).1).hour ∧ ((get_random_datetime now t p).1).hour ≤ 19) ∧
    (¬ t (p + 1) < 7/10 → t (p + 1 + 1) < 1/2 →
      20 ≤ ((get_random_datetime now t p).1).hour ∧
        ((get_random_datetime now t p).1).hour ≤ 23) ∧
    (¬ t (p + 1) < 7/10 → ¬ t (p + 1 + 1) < 1/2 →
      0 ≤ ((get_random_datetime now t p).1).hour ∧ ((get_random_datetime now t p).1).hour ≤ 7) ∧
    (0 ≤ ((get_random_datetime now t p).1).minute ∧
      ((get_random_datetime now t p).1).minute ≤ 59) ∧
    (0 ≤ ((get_random_datetime now t p).1).second ∧
      ((get_random_datetime now t p).1).second ≤ 59) ∧
    (⌊now - (DAYS_BACK : ℚ)⌋ ≤ ((get_random_datetime now t p).1).day ∧
      ((get_random_datetime now t p).1).day ≤ ⌊now⌋) := by
  have hp := hv p
  have hD : (0 : ℚ) < (DAYS_BACK : ℚ) := by norm_num [DAYS_BACK]
  have hrw : now - (now - (DAYS_BACK : ℚ)) = (DAYS_BACK : ℚ) := by ring
  have hdl : ⌊now - (DAYS_BACK : ℚ)⌋ ≤
      ⌊now - (DAYS_BACK : ℚ) + (now - (now - (DAYS_BACK : ℚ))) * t p⌋ := by
    apply Int.floor_le_floor
    rw [hrw]
    nlinarith [hp.1]
  have hdu : ⌊now - (DAYS_BACK : ℚ) + (now - (now - (DAYS_BACK : ℚ))) * t p⌋ ≤ ⌊now⌋ := by
    apply Int.floor_le_floor
    rw [hrw]
    nlinarith [hp.2]
  dsimp only [get_random_datetime, random_random]
  split_ifs with h1 h2
  · obtain ⟨hb1, hb2⟩ := random_randint_bounds 8 19 t (p + 1 + 1) hv (by norm_num)
    exact ⟨⟨by omega, by omega⟩, fun _ => ⟨hb1, hb2⟩,
      fun hc _ => (hc h1).elim, fun hc _ => (hc h1).elim,
      random_randint_bounds 0 59 t _ hv (by norm_num),
      random_randint_bounds 0 59 t _ hv (by norm_num), hdl, hdu⟩
  · obtain ⟨hb1, hb2⟩ := random_randint_bounds 20 23 t (p + 1 + 1 + 1) hv (by norm_num)
    exact ⟨⟨by omega, by omega⟩, fun hc => (h1 hc).elim,
      fun _ _ => ⟨hb1, hb2⟩, fun _ hc => (hc h2).elim,
      random_randint_bounds 0 59 t _ hv (by norm_num),
      random_randint_bounds 0 59 t _ hv (by norm_num), hdl, hdu⟩
  · obtain ⟨hb1, hb2⟩ := random_randint_bounds 0 7 t (p + 1 + 1 + 1) hv (by norm_num)
    exact ⟨⟨by omega, by omega⟩, fun hc => (h1 hc).elim,
      fun _ hc => (h2 hc).elim, fun _ _ => ⟨hb1, hb2⟩,
      random_randint_bounds 0 59 t _ hv (by norm_num),
      random_randint_bounds 0 59 t _ hv (by norm_num), hdl, hdu⟩

/-- Claim C1, witness: the theorem applied at `now = 0` and the all-zero tape. -/
theorem claim_c1_timestamp_ranges_witness :
    validTape zeroTape ∧
      (0 ≤ ((get_random_datetime 0 zeroTape 0).1).hour ∧
        ((get_random_datetime 0 zeroTape 0).1).hour ≤ 23) ∧
      (⌊(0 : ℚ) - (DAYS_BACK : ℚ)⌋ ≤ ((get_random_datetime 0 zeroTape 0).1).day ∧
        ((get_random_datetime 0 zeroTape 0).1).day ≤ ⌊(0 : ℚ)⌋) :=
  ⟨zeroTape_valid, (claim_c1_timestamp_ranges 0 zeroTape 0 zeroTape_valid).1,
    (claim_c1_timestamp_ranges 0 zeroTape 0 zeroTape_valid).2.2.2.2.2.2⟩

-- ===========================================================================
-- Claim C8
-- ===========================================================================

/-- Claim C8: the calendar date of the generated timestamp depends only on the
date draw (the tape cell at the start position) — two tapes agreeing there
yield the same day number, whatever the day/night coin and the draws it gates
do. -/
theorem claim_c8_date_independent (now : ℚ) (t t' : Tape) (p : ℕ) (h : t p = t' p) :
    ((get_random_datetime now t p).1).day = ((get_random_datetime now t' p).1).day := by
  dsimp only [get_random_datetime, random_random]
  rw [h]

/-- Claim C8, witness: two concrete tapes agreeing at the date draw but
differing in the day/night coin give the same day number. -/
theorem claim_c8_date_independent_witness :
    zeroTape 0 = (fun n => if n = 0 then (0 : ℚ) else 1/2) 0 ∧
    ((get_random_datetime 0 zeroTape 0).1).day =
      ((get_random_datetime 0 (fun n => if n = 0 then (0 : ℚ) else 1/2) 0).1).day :=
  ⟨by norm_num [zeroTape],
    claim_c8_date_independent 0 zeroTape _ 0 (by norm_num [zeroTape])⟩

-- ===========================================================================
-- Claim C3
-- ===========================================================================

/-- Claim C3: with `dice` the percentile draw (always in `[1,100]`), the
pre-override status is 200 iff `dice ≤ 80`, 404 iff `81 ≤ dice ≤ 90`, 500 iff
`91 ≤ dice ≤ 95`, and a member of the fallback set `OTHER_CODES` when
`96 ≤ dice`; a non-incident address leaves the base status untouched, and the
incident address replaces it by 404 exactly when the extra half-probability
draw succeeds. -/
theorem claim_c3_status_distribution (t : Tape) (p : ℕ) (hv : validTape t) :
    (1 ≤ (random_randint 1 100 t p).1 ∧ (random_randint 1 100 t p).1 ≤ 100) ∧
    ((accessStatusBase t p).1 = 200 ↔ (random_randint 1 100 t p).1 ≤ 80) ∧
    ((accessStatusBase t p).1 = 404 ↔
      81 ≤ (random_randint 1 100 t p).1 ∧ (random_randint 1 100 t p).1 ≤ 90) ∧
    ((accessStatusBase t p).1 = 500 ↔
      91 ≤ (random_randint 1 100 t p).1 ∧ (random_randint 1 100 t p).1 ≤ 95) ∧
    (96 ≤ (random_randint 1 100 t p).1 → (accessStatusBase t p).1 ∈ OTHER_CODES) ∧
    (∀ ip : String, ip ≠ INCIDENT_IP → accessStatus ip t p = accessStatusBase t p) ∧
    ((accessStatus INCIDENT_IP t p).1 =
      if t ((accessStatusBase t p).2) < 1/2 then 404 else (accessStatusBase t p).1) := by
  obtain ⟨hd1, hd2⟩ := random_randint_bounds 1 100 t p hv (by norm_num)
  have hother : 96 ≤ (random_randint 1 100 t p).1 → (accessStatusBase t p).1 ∈ OTHER_CODES := by
    intro h96
    simp only [accessStatusBase]
    rw [pickStatus_eq, if_neg (by omega), if_neg (by omega), if_neg (by omega)]
    exact random_choice_mem OTHER_CODES 0 t _ hv (by decide)
  have hbase : (accessStatusBase t p).1 = 200 ∨ (accessStatusBase t p).1 = 404 ∨
      (accessStatusBase t p).1 = 500 ∨ (accessStatusBase t p).1 ∈ OTHER_CODES := by
    simp only [accessStatusBase]
    rw [pickStatus_eq]
    split_ifs
    · exact Or.inl rfl
    · exact Or.inr (Or.inl rfl)
    · exact Or.inr (Or.inr (Or.inl rfl))
    · exact Or.inr (Or.inr (Or.inr
        (random_choice_mem OTHER_CODES 0 t _ hv (by decide))))
  have h200 : (random_randint 1 100 t p).1 ≤ 80 → (accessStatusBase t p).1 = 200 := by
    intro h
    simp only [accessStatusBase]
    rw [pickStatus_eq, if_pos h]
  have h404 : 81 ≤ (random_randint 1 100 t p).1 → (random_randint 1 100 t p).1 ≤ 90 →
      (accessStatusBase t p).1 = 404 := by
    intro h1 h2
    simp only [accessStatusBase]
    rw [pickStatus_eq, if_neg (by omega), if_pos h2]
  have h500 : 91 ≤ (random_randint 1 100 t p).1 → (random_randint 1 100 t p).1 ≤ 95 →
      (accessStatusBase t p).1 = 500 := by
    intro h1 h2
    simp only [accessStatusBase]
    rw [pickStatus_eq, if_neg (by omega), if_neg (by omega), if_pos h2]
  refine ⟨⟨hd1, hd2⟩, ?_, ?_, ?_, hother, ?_, ?_⟩
  · constructor
    · intro h
      by_contra hc
      rcases (show 81 ≤ (random_randint 1 100 t p).1 ∧ (random_randint 1 100 t p).1 ≤ 90 ∨
          91 ≤ (random_randint 1 100 t p).1 ∧ (random_randint 1 100 t p).1 ≤ 95 ∨
          96 ≤ (random_randint 1 100 t p).1 by omega) with h9 | h9 | h9
      · rw [h404 h9.1 h9.2] at h
        exact absurd h (by norm_num)
      · rw [h500 h9.1 h9.2] at h
        exact absurd h (by norm_num)
      · have := hother h9
        rw [h] at this
        exact absurd this (by decide)
    · exact h200
  · constructor
    · intro h
      by_contra hc
      rcases (show (random_randint 1 100 t p).1 ≤ 80 ∨
          91 ≤ (random_randint 1 100 t p).1 ∧ (random_randint 1 100 t p).1 ≤ 95 ∨
          96 ≤ (random_randint 1 100 t p).1 by omega) with h9 | h9 | h9
      · rw [h200 h9] at h
        exact absurd h (by norm_num)
      · rw [h500 h9.1 h9.2] at h
        exact absurd h (by norm_num)
      · have := hother h9
        rw [h] at this
        exact absurd this (by decide)
    · exact fun h => h404 h.1 h.2
  · constructor
    · intro h
      by_contra hc
      rcases (show (random_randint 1 100 t p).1 ≤ 80 ∨
          81 ≤ (random_randint 1 100 t p).1 ∧ (random_randint 1 100 t p).1 ≤ 90 ∨
          96 ≤ (random_randint 1 100 t p).1 by omega) with h9 | h9 | h9
      · rw [h200 h9] at h
        exact absurd h (by norm_num)
      · rw [h404 h9.1 h9.2] at h
        exact absurd h (by norm_num)
      · have := hother h9
        rw [h] at this
        exact absurd this (by decide)
    · exact fun h => h500 h.1 h.2
  · intro ip hip
    simp only [accessStatus]
    rw [if_neg hip]
  · unfold accessStatus
    rw [if_pos rfl]
    dsimp only [random_random]
    split_ifs <;> rfl

/-- Claim C3, witness: the theorem applied at the all-zero tape (dice 1,
status 200, no incident override flip needed). -/
theorem claim_c3_status_distribution_witness :
    validTape zeroTape ∧
      ((accessStatusBase zeroTape 0).1 = 200 ↔ (random_randint 1 100 zeroTape 0).1 ≤ 80) :=
  ⟨zeroTape_valid, (claim_c3_status_distribution zeroTape 0 zeroTape_valid).2.1⟩

-- ===========================================================================
-- Claim C5
-- ===========================================================================

/-- Claim C5: the Windows event id is always one of the four fixed codes, the
message is the deterministic `messages_map` image of the id, and a line whose
event code is 4625 contains "An account failed to log on". -/
theorem claim_c5_windows_messages (now : ℚ) (t : Tape) (p : ℕ) (hv : validTape t) :
    ∃ w : WinLog, (generate_windows_fields now t p).1 = some w ∧
      (generate_windows_log now t p).1 = some (render_windows w) ∧
      w.event_id ∈ WINDOWS_EVENT_IDS ∧
      messages_map.lookup w.event_id = some w.msg ∧
      (w.event_id = 4625 →
        ∃ pre post : String,
          render_windows w = pre ++ "An account failed to log on" ++ post) := by
  obtain ⟨w, hw, hmem, hlook, -⟩ := windows_fields_spec now t p hv
  refine ⟨w, hw, by simp [generate_windows_log, hw], hmem, hlook, ?_⟩
  intro h4625
  have hm4625 : messages_map.lookup 4625 = some "An account failed to log on" := by decide
  rw [h4625, hm4625] at hlook
  have hmsg : w.msg = "An account failed to log on" := (Option.some_inj.mp hlook).symm
  refine ⟨strftime_windows w.dt ++ " " ++ "WINHOST" ++ " Security " ++ "ID=" ++
      toString w.event_id ++ " MSG=\"",
    "\" " ++ "[client " ++ w.ip ++ "] username=\"" ++ w.username ++ "\" " ++
      "geo_country=\"" ++ w.country ++ "\" geo_city=\"" ++ w.city ++ "\"", ?_⟩
  rw [render_windows, hmsg]
  simp only [← String.append_assoc]

/-- Claim C5, witness: the theorem applied at the all-zero tape. -/
theorem claim_c5_windows_messages_witness :
    validTape zeroTape ∧
      ∃ w : WinLog, (generate_windows_fields 0 zeroTape 0).1 = some w ∧
        messages_map.lookup w.event_id = some w.msg := by
  obtain ⟨w, hw, -, -, hl, -⟩ := claim_c5_windows_messages 0 zeroTape 0 zeroTape_valid
  exact ⟨zeroTape_valid, w, hw, hl⟩

-- ===========================================================================
-- Claim C6
-- ===========================================================================

/-- Claim C6: splitting any location entry on `", "` and re-rendering it
round-trips to the original (unique, since the list has no duplicates) entry;
and every generated line of each of the four kinds ends with a geo tag whose
country/city recombine to one entry of the fixed location list. -/
theorem claim_c6_geo_roundtrip (now : ℚ) (t : Tape) (p : ℕ) (hv : validTape t) :
    GEOGRAPHIC_LOCATIONS.Nodup ∧
    (∀ loc ∈ GEOGRAPHIC_LOCATIONS,
      (unpack2 (pySplit loc ", ")).map (fun q => q.1 ++ ", " ++ q.2) = some loc) ∧
    (∀ g ∈ [generate_apache_access_log, generate_apache_error_log,
        generate_firewall_log, generate_windows_log],
      ∃ s pre c ci, (g now t p).1 = some s ∧
        s = pre ++ "geo_country=\"" ++ c ++ "\" geo_city=\"" ++ ci ++ "\"" ∧
        c ++ ", " ++ ci ∈ GEOGRAPHIC_LOCATIONS) := by
  refine ⟨by decide, loc_split_pair, ?_⟩
  intro g hg
  simp only [List.mem_cons, List.not_mem_nil, or_false] at hg
  rcases hg with rfl | rfl | rfl | rfl
  · obtain ⟨a, ha, hmem⟩ := access_fields_spec now t p hv
    exact ⟨render_access a, _, a.country, a.city,
      by simp [generate_apache_access_log, ha], rfl, hmem⟩
  · obtain ⟨e, he, hmem⟩ := error_fields_spec now t p hv
    exact ⟨render_error e, _, e.country, e.city,
      by simp [generate_apache_error_log, he], rfl, hmem⟩
  · obtain ⟨f, hf, hmem⟩ := firewall_fields_spec now t p hv
    exact ⟨render_firewall f, _, f.country, f.city,
      by simp [generate_firewall_log, hf], rfl, hmem⟩
  · obtain ⟨w, hw, -, -, hmem⟩ := windows_fields_spec now t p hv
    exact ⟨render_windows w, _, w.country, w.city,
      by simp [generate_windows_log, hw], rfl, hmem⟩

/-- Claim C6, witness: the theorem applied at the all-zero tape. -/
theorem claim_c6_geo_roundtrip_witness :
    validTape zeroTape ∧ GEOGRAPHIC_LOCATIONS.Nodup :=
  ⟨zeroTape_valid, (claim_c6_geo_roundtrip 0 zeroTape 0 zeroTape_valid).1⟩

-- ===========================================================================
-- Claim C7
-- ===========================================================================

/-- Claim C7: all four line generators are total (no exception, i.e. never
`none`) on every valid draw sequence; the status selection always assigns a
status (one of the weighted codes or a fallback member); every location splits
on `", "` into exactly two parts; and the Windows message lookup is defined
for every drawable event id. -/
theorem claim_c7_generators_total (now : ℚ) (t : Tape) (p : ℕ) (hv : validTape t) :
    ((generate_apache_access_log now t p).1).isSome ∧
    ((generate_apache_error_log now t p).1).isSome ∧
    ((generate_firewall_log now t p).1).isSome ∧
    ((generate_windows_log now t p).1).isSome ∧
    ((accessStatusBase t p).1 = 200 ∨ (accessStatusBase t p).1 = 404 ∨
      (accessStatusBase t p).1 = 500 ∨ (accessStatusBase t p).1 ∈ OTHER_CODES) ∧
    (∀ loc ∈ GEOGRAPHIC_LOCATIONS, (pySplit loc ", ").length = 2) ∧
    (∀ e ∈ WINDOWS_EVENT_IDS, (messages_map.lookup e).isSome) := by
  refine ⟨access_log_isSome now t p hv, error_log_isSome now t p hv,
    firewall_log_isSome now t p hv, windows_log_isSome now t p hv, ?_,
    by decide, messages_map_total⟩
  simp only [accessStatusBase]
  rw [pickStatus_eq]
  split_ifs
  · exact Or.inl rfl
  · exact Or.inr (Or.inl rfl)
  · exact Or.inr (Or.inr (Or.inl rfl))
  · exact Or.inr (Or.inr (Or.inr
      (random_choice_mem OTHER_CODES 0 t _ hv (by decide))))

/-- Claim C7, witness: the theorem applied at the all-zero tape. -/
theorem claim_c7_generators_total_witness :
    validTape zeroTape ∧ ((generate_apache_access_log 0 zeroTape 0).1).isSome :=
  ⟨zeroTape_valid, (claim_c7_generators_total 0 zeroTape 0 zeroTape_valid).1⟩

-- ===========================================================================
-- Claim C4
-- ===========================================================================

/-- Claim C4: for any configured counts, the run writes, for each of the four
kinds, exactly that count of generated lines (each with a trailing newline,
via `renderFile`) to that kind's dedicated destination, replacing whatever the
file system held before; a count of 0 leaves the destination existing with
empty content. -/
theorem claim_c4_output_writer (nA nE nF nW : ℕ) (now : ℚ) (t : Tape) (fs : FS)
    (hv : validTape t) :
    ∃ fs' : FS, (pymain nA nE nF nW now t fs).1 = some fs' ∧
      (∃ ls, ls.length = nA ∧ fs' "apache_access.txt" = some (renderFile ls)) ∧
      (∃ ls, ls.length = nE ∧ fs' "apache_error.txt" = some (renderFile ls)) ∧
      (∃ ls, ls.length = nF ∧ fs' "firewall_logs.txt" = some (renderFile ls)) ∧
      (∃ ls, ls.length = nW ∧ fs' "windows_logs.txt" = some (renderFile ls)) ∧
      (nA = 0 → fs' "apache_access.txt" = some "") ∧
      (nE = 0 → fs' "apache_error.txt" = some "") ∧
      (nF = 0 → fs' "firewall_logs.txt" = some "") ∧
      (nW = 0 → fs' "windows_logs.txt" = some "") := by
  obtain ⟨lsA, hAeq, hAlen⟩ := runN_spec (generate_apache_access_log now) t
    (fun q => access_log_isSome now t q hv) nA 0
  rcases hA : runN (generate_apache_access_log now) nA t 0 with ⟨oA, p1⟩
  rw [hA] at hAeq
  have hoA : oA = some lsA := hAeq
  subst hoA
  obtain ⟨lsE, hEeq, hElen⟩ := runN_spec (generate_apache_error_log now) t
    (fun q => error_log_isSome now t q hv) nE p1
  rcases hE : runN (generate_apache_error_log now) nE t p1 with ⟨oE, p2⟩
  rw [hE] at hEeq
  have hoE : oE = some lsE := hEeq
  subst hoE
  obtain ⟨lsF, hFeq, hFlen⟩ := runN_spec (generate_firewall_log now) t
    (fun q => firewall_log_isSome now t q hv) nF p2
  rcases hF : runN (generate_firewall_log now) nF t p2 with ⟨oF, p3⟩
  rw [hF] at hFeq
  have hoF : oF = some lsF := hFeq
  subst hoF
  obtain ⟨lsW, hWeq, hWlen⟩ := runN_spec (generate_windows_log now) t
    (fun q => windows_log_isSome now t q hv) nW p3
  rcases hW : runN (generate_windows_log now) nW t p3 with ⟨oW, p4⟩
  rw [hW] at hWeq
  have hoW : oW = some lsW := hWeq
  subst hoW
  have hmain : (pymain nA nE nF nW now t fs).1 =
      some (writeFile (writeFile (writeFile (writeFile fs
        "apache_access.txt" (renderFile lsA))
        "apache_error.txt" (renderFile lsE))
        "firewall_logs.txt" (renderFile lsF))
        "windows_logs.txt" (renderFile lsW)) := by
    simp only [pymain, hA, hE, hF, hW]
  refine ⟨_, hmain, ⟨lsA, hAlen, ?_⟩, ⟨lsE, hElen, ?_⟩, ⟨lsF, hFlen, ?_⟩, ⟨lsW, hWlen, ?_⟩,
    ?_, ?_, ?_, ?_⟩
  · simp [writeFile]
  · simp [writeFile]
  · simp [writeFile]
  · simp [writeFile]
  · intro h0
    have : lsA = [] := List.length_eq_zero.mp (hAlen.trans h0)
    simp [writeFile, this, renderFile, String.join]
  · intro h0
    have : lsE = [] := List.length_eq_zero.mp (hElen.trans h0)
    simp [writeFile, this, renderFile, String.join]
  · intro h0
    have : lsF = [] := List.length_eq_zero.mp (hFlen.trans h0)
    simp [writeFile, this, renderFile, String.join]
  · intro h0
    have : lsW = [] := List.length_eq_zero.mp (hWlen.trans h0)
    simp [writeFile, this, renderFile, String.join]

/-- Claim C4, witness: the theorem applied at concrete counts, the all-zero
tape and the empty file system. -/
theorem claim_c4_output_writer_witness :
    validTape zeroTape ∧
      ∃ fs', (pymain 1 0 2 3 0 zeroTape (fun _ => none)).1 = some fs' := by
  obtain ⟨fs', h, -⟩ := claim_c4_output_writer 1 0 2 3 0 zeroTape (fun _ => none) zeroTape_valid
  exact ⟨zeroTape_valid, fs', h⟩

-- ===========================================================================
-- Claim C9
-- ===========================================================================

/-- Claim C9: the incident address is not in the frequent pool, yet for every
`now` there is a draw sequence under which the error-log generator — and
likewise the firewall-log generator, neither of which performs the incident
short-circuit — synthesizes exactly `9.9.9.9` (each octet 9 lies in
`[1,254]`). -/
theorem claim_c9_incident_reachable :
    INCIDENT_IP ∉ HIGH_FREQ_IPS ∧
    (∀ now : ℚ, ∃ t : Tape, validTape t ∧
      ∃ e : ErrorLog, (generate_apache_error_fields now t 0).1 = some e ∧
        e.ip = INCIDENT_IP) ∧
    (∀ now : ℚ, ∃ t : Tape, validTape t ∧
      ∃ f : FirewallLog, (generate_firewall_fields now t 0).1 = some f ∧
        f.ip = INCIDENT_IP) := by
  have hvt : validTape incidentTape := by
    intro n
    unfold incidentTape
    split_ifs <;> norm_num
  have hdt2 : ∀ now : ℚ, (get_random_datetime now incidentTape 0).2 = 5 := by
    intro now
    dsimp only [get_random_datetime, random_random, random_randint]
    norm_num [incidentTape]
  have hip : get_random_ip incidentTape 5 = ("9.9.9.9", 10) := by
    dsimp only [get_random_ip, random_random, random_randint, random_choice]
    norm_num [incidentTape, CHANCE_HIGH_FREQ]
    decide
  have hsplit : unpack2 (pySplit "United States, New York" ", ") =
      some ("United States", "New York") := by decide
  refine ⟨by decide, ?_, ?_⟩
  · intro now
    refine ⟨incidentTape, hvt, ?_⟩
    have hsev : random_choice ERROR_SEVERITIES "" incidentTape 10 = ("INFO", 11) := by
      dsimp only [random_choice]
      norm_num [incidentTape, ERROR_SEVERITIES]
    have hmsg : random_choice ERROR_MESSAGES "" incidentTape 11 = ("File not found", 12) := by
      dsimp only [random_choice]
      norm_num [incidentTape, ERROR_MESSAGES]
    have hloc : get_random_location incidentTape 12 = ("United States, New York", 13) := by
      dsimp only [get_random_location, random_choice]
      norm_num [incidentTape, GEOGRAPHIC_LOCATIONS]
    simp only [generate_apache_error_fields, hdt2 now, hip, hsev, hmsg, hloc, hsplit]
    exact ⟨_, rfl, rfl⟩
  · intro now
    refine ⟨incidentTape, hvt, ?_⟩
    have hact : random_choice FIREWALL_ACTIONS "" incidentTape 10 = ("ALLOW", 11) := by
      dsimp only [random_choice]
      norm_num [incidentTape, FIREWALL_ACTIONS]
    have hloc : get_random_location incidentTape 11 = ("United States, New York", 12) := by
      dsimp only [get_random_location, random_choice]
      norm_num [incidentTape, GEOGRAPHIC_LOCATIONS]
    simp only [generate_firewall_fields, hdt2 now, hip, hact, hloc, hsplit]
    exact ⟨_, rfl, rfl⟩

-- ===========================================================================
-- Claim C10
-- ===========================================================================

/-- Claim C10: whenever `now` is strictly after midnight and strictly before
23:59:59, some draw sequence lands the date draw on today's day number and
redraws the clock fields independently to 23:59:59, producing a timestamp
strictly later than `now` — even though its calendar date is in the lookback
window. -/
theorem claim_c10_future_timestamps (now : ℚ) (h1 : 0 < now - ⌊now⌋)
    (h2 : now - ⌊now⌋ < 86399/86400) :
    ∃ t : Tape, validTape t ∧
      ((get_random_datetime now t 0).1).day = ⌊now⌋ ∧
      now < pyDateTimeVal ((get_random_datetime now t 0).1) := by
  have hD7 : ((DAYS_BACK : ℕ) : ℚ) = 7 := by norm_num [DAYS_BACK]
  have harg : now - (DAYS_BACK : ℚ) + (DAYS_BACK : ℚ) * ((7 - Int.fract now) / 7) =
      ((⌊now⌋ : ℤ) : ℚ) := by
    rw [Int.fract, hD7]
    ring
  refine ⟨fun n => if n = 0 then (7 - (now - ⌊now⌋)) / 7
    else if n = 1 then 7/10 else if n = 2 then 0
    else if n = 3 then 3/4 else 59/60, ?_, ?_, ?_⟩
  · intro n
    dsimp only
    split_ifs
    · constructor
      · apply div_nonneg _ (by norm_num)
        linarith
      · rw [div_lt_one (by norm_num : (0 : ℚ) < 7)]
        linarith
    · norm_num
    · norm_num
    · norm_num
    · norm_num
  · dsimp only [get_random_datetime, random_random]
    norm_num
    rw [harg, Int.floor_intCast]
  · dsimp only [get_random_datetime, random_random, random_randint, pyDateTimeVal]
    norm_num
    rw [harg, Int.floor_intCast]
    linarith

/-- Claim C10, witness: the theorem applied at `now = 1/2` (noon of day 0). -/
theorem claim_c10_future_timestamps_witness :
    (0 < (1/2 : ℚ) - ⌊(1/2 : ℚ)⌋) ∧ ((1/2 : ℚ) - ⌊(1/2 : ℚ)⌋ < 86399/86400) ∧
    ∃ t : Tape, validTape t ∧
      ((get_random_datetime (1/2) t 0).1).day = ⌊(1/2 : ℚ)⌋ ∧
      (1/2 : ℚ) < pyDateTimeVal ((get_random_datetime (1/2) t 0).1) :=
  ⟨by norm_num, by norm_num, claim_c10_future_timestamps (1/2) (by norm_num) (by norm_num)⟩
